import Mathlib

/-!
Shallow embedding of the Interviewer-AI backend pipeline
(`backend/functions/company_research/app.py`,
 `backend/functions/interviewer_research/app.py`,
 `backend/functions/persona_generator/app.py`)
together with proofs about the claims of the specification.

DynamoDB tables are modelled as association lists, external providers and
stores as explicit behaviour oracles, and Python exceptions as `Except`:
a call wrapped in `try/except` in the source is a `match` on the oracle
whose `error` branch follows the `except` clause, while a call that is not
wrapped propagates the `error` to the handler's result.
-/

/-- Python truthiness of an optional string value (`None` and `""` are falsy). -/
def truthy : Option String → Bool
  | none => false
  | some s => !s.isEmpty

/-- Extract the string from an optional value (only used after a `truthy` guard). -/
def getS (o : Option String) : String := o.getD ""

/-- Python `a or b` on optional strings: the first truthy operand, else `b`. -/
def orPy (a b : Option String) : Option String :=
  if truthy a then a else b

/-- Substring containment: the pattern occurs contiguously inside `s`
(used to state that a prompt mentions a literal). -/
def strContains (s pat : String) : Prop := pat.data <:+: s.data

instance (s pat : String) : Decidable (strContains s pat) :=
  List.decidableInfix pat.data s.data

/-- `put_item` semantics on an association-list table: overwrite the item
with this key, or insert it. The table is keyed by its primary key, so the
position of an item carries no meaning. -/
def putAssoc {α : Type} (tbl : List (String × α)) (k : String) (v : α) :
    List (String × α) :=
  (k, v) :: tbl.filter (fun p => p.1 != k)

/-- Python `str.lower()` (ASCII payloads). -/
def pyLower (s : String) : String := ⟨s.data.map Char.toLower⟩

/-- Python `str.replace(old, new)` for one-character patterns, the only form
the source uses (`.replace(' ', '_')`). -/
def pyReplace (s : String) (oldc newc : Char) : String :=
  ⟨s.data.map (fun c => if c = oldc then newc else c)⟩

/-- JSON-ish values, the payloads stored in and read from the tables. -/
inductive Json where
  | null
  | bool (b : Bool)
  | num (n : Int)
  | str (s : String)
  | arr (elems : List Json)
  | obj (fields : List (String × Json))

/-- Lookup of a key in a JSON object field list (first match, like a dict). -/
def lookupField : List (String × Json) → String → Option Json
  | [], _ => none
  | (k, v) :: rest, key => if k = key then some v else lookupField rest key

/-- Whether a value is a Python dict. -/
def Json.isObj : Json → Bool
  | .obj _ => true
  | _ => false

def lbraceChar : Char := Char.ofNat 123
def rbraceChar : Char := Char.ofNat 125
def dquoteChar : Char := Char.ofNat 34
def squoteChar : Char := Char.ofNat 39
def backslashChar : Char := Char.ofNat 92

/-- `"  " * n`, the indentation used by `json.dumps(..., indent=2)`. -/
def jsonIndent (n : Nat) : String := String.join (List.replicate n "  ")

/-- Escaping of one character inside a JSON string literal, as `json.dumps` does
for the ASCII payloads of this program. -/
def jsonEscapeChar (c : Char) : String :=
  if c = dquoteChar then "\x5c\x22"
  else if c = backslashChar then "\x5c\x5c"
  else if c = '\n' then "\x5cn"
  else if c = '\t' then "\x5ct"
  else if c = '\r' then "\x5cr"
  else String.singleton c

/-- A JSON string literal with surrounding double quotes. -/
def jsonQuote (s : String) : String :=
  "\x22" ++ String.join (s.data.map jsonEscapeChar) ++ "\x22"

mutual

/-- `json.dumps(v, indent=2)` rendering of a value at nesting level `lvl`. -/
def jsonDumpVal : Json → Nat → String
  | .null, _ => "null"
  | .bool true, _ => "true"
  | .bool false, _ => "false"
  | .num n, _ => toString n
  | .str s, _ => jsonQuote s
  | .arr [], _ => "[]"
  | .arr (x :: xs), lvl =>
      "[\n" ++ jsonDumpItems (x :: xs) (lvl + 1) ++ "\n" ++ jsonIndent lvl ++ "]"
  | .obj [], _ => "\x7b\x7d"
  | .obj (kv :: kvs), lvl =>
      "\x7b\n" ++ jsonDumpFields (kv :: kvs) (lvl + 1) ++ "\n" ++ jsonIndent lvl ++ "\x7d"

/-- Array items of `json.dumps(..., indent=2)`, separated by `",\n"` plus indent. -/
def jsonDumpItems : List Json → Nat → String
  | [], _ => ""
  | [x], lvl => jsonIndent lvl ++ jsonDumpVal x lvl
  | x :: y :: rest, lvl =>
      jsonIndent lvl ++ jsonDumpVal x lvl ++ ",\n" ++ jsonDumpItems (y :: rest) lvl

/-- Object fields of `json.dumps(..., indent=2)`: `"key": value` lines. -/
def jsonDumpFields : List (String × Json) → Nat → String
  | [], _ => ""
  | [(k, v)], lvl => jsonIndent lvl ++ jsonQuote k ++ ": " ++ jsonDumpVal v lvl
  | (k, v) :: kv :: rest, lvl =>
      jsonIndent lvl ++ jsonQuote k ++ ": " ++ jsonDumpVal v lvl ++ ",\n" ++
        jsonDumpFields (kv :: rest) lvl

end

/-- `json.dumps(v, indent=2)`. -/
def jsonDumps2 (v : Json) : String := jsonDumpVal v 0

mutual

/-- `json.dumps(v)` with the default compact separators `", "` and `": "`. -/
def jsonDumpCompact : Json → String
  | .null => "null"
  | .bool true => "true"
  | .bool false => "false"
  | .num n => toString n
  | .str s => jsonQuote s
  | .arr xs => "[" ++ jsonDumpCompactItems xs ++ "]"
  | .obj kvs => "\x7b" ++ jsonDumpCompactFields kvs ++ "\x7d"

def jsonDumpCompactItems : List Json → String
  | [] => ""
  | [x] => jsonDumpCompact x
  | x :: y :: rest => jsonDumpCompact x ++ ", " ++ jsonDumpCompactItems (y :: rest)

def jsonDumpCompactFields : List (String × Json) → String
  | [] => ""
  | [(k, v)] => jsonQuote k ++ ": " ++ jsonDumpCompact v
  | (k, v) :: kv :: rest =>
      jsonQuote k ++ ": " ++ jsonDumpCompact v ++ ", " ++
        jsonDumpCompactFields (kv :: rest)

end

/-- Python `str()` of a JSON-ish value, as interpolated into an f-string. -/
def pyStr : Json → String
  | .str s => s
  | .num n => toString n
  | .null => "None"
  | .bool true => "True"
  | .bool false => "False"
  | .arr xs => "[" ++ jsonDumpCompactItems xs ++ "]"
  | .obj kvs => "\x7b" ++ jsonDumpCompactFields kvs ++ "\x7d"

/-! ### A model of `json.loads`

A recursive-descent parser with fuel; it accepts the JSON fragment relevant
to this program (objects, arrays, strings, integers, literals) and returns
`none` where `json.loads` raises. -/

def jsonWs (c : Char) : Bool := c = ' ' || c = '\n' || c = '\t' || c = '\r'

def skipWs (l : List Char) : List Char := l.dropWhile jsonWs

def parseDigits (l : List Char) : List Char × List Char :=
  (l.takeWhile Char.isDigit, l.dropWhile Char.isDigit)

def digitsToNat : List Char → Nat → Nat
  | [], acc => acc
  | c :: rest, acc => digitsToNat rest (acc * 10 + (c.toNat - 48))

/-- Parse a JSON string body after the opening quote (basic escapes only). -/
def parseStringBody : List Char → Option (String × List Char)
  | [] => none
  | c :: rest =>
    if c = dquoteChar then some ("", rest)
    else if c = backslashChar then
      match rest with
      | [] => none
      | e :: rest' =>
        let ec : Option Char :=
          if e = dquoteChar then some dquoteChar
          else if e = backslashChar then some backslashChar
          else if e = 'n' then some '\n'
          else if e = 't' then some '\t'
          else if e = 'r' then some '\r'
          else if e = '/' then some '/'
          else none
        match ec with
        | none => none
        | some ch =>
          match parseStringBody rest' with
          | some (s, r) => some (String.singleton ch ++ s, r)
          | none => none
    else
      match parseStringBody rest with
      | some (s, r) => some (String.singleton c ++ s, r)
      | none => none

mutual

def parseJsonVal (fuel : Nat) (l : List Char) : Option (Json × List Char) :=
  match fuel with
  | 0 => none
  | f + 1 =>
    let l := skipWs l
    match l with
    | [] => none
    | c :: rest =>
      if c = lbraceChar then parseJsonObj f (skipWs rest) true
      else if c = '[' then parseJsonArr f (skipWs rest) true
      else if c = dquoteChar then
        match parseStringBody rest with
        | some (s, r) => some (.str s, r)
        | none => none
      else if c = '-' then
        match parseDigits rest with
        | ([], _) => none
        | (ds, r) => some (.num (-(digitsToNat ds 0 : Int)), r)
      else if c.isDigit then
        match parseDigits (c :: rest) with
        | ([], _) => none
        | (ds, r) => some (.num (digitsToNat ds 0 : Int), r)
      else if List.isPrefixOf "null".data (c :: rest) then
        some (.null, (c :: rest).drop 4)
      else if List.isPrefixOf "true".data (c :: rest) then
        some (.bool true, (c :: rest).drop 4)
      else if List.isPrefixOf "false".data (c :: rest) then
        some (.bool false, (c :: rest).drop 5)
      else none

/-- Parse array elements; `first` marks that no element has been read yet
(so `]` immediately closes the array). -/
def parseJsonArr (fuel : Nat) (l : List Char) (first : Bool) :
    Option (Json × List Char) :=
  match fuel with
  | 0 => none
  | f + 1 =>
    match skipWs l with
    | [] => none
    | c :: rest =>
      if c = ']' ∧ first then some (.arr [], rest)
      else
        match parseJsonVal f (c :: rest) with
        | none => none
        | some (v, r) =>
          match skipWs r with
          | ']' :: r' => some (.arr [v], r')
          | ',' :: r' =>
            match parseJsonArr f r' false with
            | some (.arr vs, r'') => some (.arr (v :: vs), r'')
            | _ => none
          | _ => none

/-- Parse object members; `first` marks that no member has been read yet. -/
def parseJsonObj (fuel : Nat) (l : List Char) (first : Bool) :
    Option (Json × List Char) :=
  match fuel with
  | 0 => none
  | f + 1 =>
    match skipWs l with
    | [] => none
    | c :: rest =>
      if c = rbraceChar ∧ first then some (.obj [], rest)
      else if c = dquoteChar then
        match parseStringBody rest with
        | none => none
        | some (k, r) =>
          match skipWs r with
          | ':' :: r' =>
            match parseJsonVal f r' with
            | none => none
            | some (v, r'') =>
              match skipWs r'' with
              | c2 :: r3 =>
                if c2 = rbraceChar then some (.obj [(k, v)], r3)
                else if c2 = ',' then
                  match parseJsonObj f r3 false with
                  | some (.obj kvs, r4) => some (.obj ((k, v) :: kvs), r4)
                  | _ => none
                else none
              | [] => none
          | _ => none
      else none

end

/-- `json.loads`: parse a complete JSON document, `none` where Python raises. -/
def jsonLoads (s : String) : Option Json :=
  match parseJsonVal (s.data.length + 1) s.data with
  | some (v, rest) => if skipWs rest = [] then some v else none
  | none => none

example : jsonLoads "[1, 2]" = some (.arr [.num 1, .num 2]) := rfl
example : jsonLoads "\x7b\x22a\x22: 5\x7d" = some (.obj [("a", .num 5)]) := rfl
example : jsonLoads "not json" = none := rfl
example : jsonDumps2 (.obj [("a", .str "b"), ("c", .arr [.num 1, .num 2])]) =
    "\x7b\n  \x22a\x22: \x22b\x22,\n  \x22c\x22: [\n    1,\n    2\n  ]\n\x7d" := rfl

/-! ### Persisted record shapes (§3 of the design)

`SessionRecord` is the per-session item of the PersonaStorage table,
`CompanyRecord` an item of the company research table (key `company_url`),
`LIRecord` an item of the LinkedIn research table (key `linkedin_url`,
which actually stores the extracted LinkedIn id). -/

structure SessionRecord where
  job_description : Option String
  resume_text : Option String
  company_url : Option String
  prompt : Option String
  prompt_introduction : Option String
  prompt_technical : Option String
  prompt_behavioral : Option String
  prompt_conclusion : Option String
  status : Option String
  updated_at : Option Nat
deriving Repr, DecidableEq

/-- A session item with no attributes beyond the key (what a DynamoDB
`update_item` on a missing key creates before applying its SET clause). -/
def emptySessionRecord : SessionRecord :=
  ⟨none, none, none, none, none, none, none, none, none, none⟩

structure CompanyRecord where
  data : Json
  updated_at : String

structure LIRecord where
  data : Json
  persona_profile : Option String
  updated_at : Nat

abbrev SessionTable := List (String × SessionRecord)
abbrev CompanyTable := List (String × CompanyRecord)
abbrev LITable := List (String × LIRecord)

/-- `update_item` on the session table: apply a field-scoped update to the
record, creating an empty record first when the key is absent. -/
def updateSession (tbl : SessionTable) (sid : String)
    (f : SessionRecord → SessionRecord) : SessionTable :=
  match List.lookup sid tbl with
  | some r => putAssoc tbl sid (f r)
  | none => putAssoc tbl sid (f emptySessionRecord)

/-- The session-linker update `SET company_url = :url`: it touches only the
`company_url` attribute. -/
def linkCompanyUrl (r : SessionRecord) (url : String) : SessionRecord :=
  { r with company_url := some url }

/-- The prompt-persistence update of the persona generator: one `update_item`
setting all four stage prompts (plus the legacy `prompt` alias), the status
`READY` and `updated_at` together. -/
def savePromptsRecord (r : SessionRecord) (pIntro pTech pBehav pConcl : String)
    (now : Nat) : SessionRecord :=
  { r with
    prompt := some pIntro
    prompt_introduction := some pIntro
    prompt_technical := some pTech
    prompt_behavioral := some pBehav
    prompt_conclusion := some pConcl
    status := some "READY"
    updated_at := some now }

/-! ### Company research (`company_research/app.py`) -/

/-- How a non-string provider payload can be turned into a dict:
via a `model_dump` method, a `dict` method (either of which may raise),
or neither. `model_dump`/`dict` return the model's field dict when they
succeed. -/
inductive DumpMethod where
  | modelDump (r : Except String (List (String × Json)))
  | dictMethod (r : Except String (List (String × Json)))
  | neither

/-- A provider payload: a typed object (with its `str()` rendering) or a string. -/
inductive RawOutput where
  | typed (dm : DumpMethod) (asStr : String)
  | str (s : String)

/-- Normalization of the provider payload (lines 95–116 of
`company_research/app.py`): structured-object extraction for typed objects
(falling back to `{"raw_output": str(raw)}` when the methods are missing or
raise), JSON parse for strings (falling back to `{"raw_output": raw}` when
the parse raises). Total: every `except` branch wraps instead of raising. -/
def normalizeOutput : RawOutput → Json
  | .typed (.modelDump (.ok fs)) _ => .obj fs
  | .typed (.modelDump (.error _)) s => .obj [("raw_output", .str s)]
  | .typed (.dictMethod (.ok fs)) _ => .obj fs
  | .typed (.dictMethod (.error _)) s => .obj [("raw_output", .str s)]
  | .typed .neither s => .obj [("raw_output", .str s)]
  | .str s =>
    match jsonLoads s with
    | some v => v
    | none => .obj [("raw_output", .str s)]

/-- One poll of `client.beta.task_run.result`: the call raises, or the task
has a truthy `output`, or it is still pending. -/
inductive ProviderStep where
  | raise (msg : String)
  | ready (raw : RawOutput)
  | pending

/-- Outcome of the 30-attempt polling loop: the raw payload (with the number
of result calls made and seconds slept), a raised provider error, or the
`for`/`else` timeout. -/
inductive CompanyPollOutcome where
  | got (raw : RawOutput) (calls : Nat) (sleepSeconds : Nat)
  | raised (msg : String) (calls : Nat)
  | timedOut (calls : Nat) (sleepSeconds : Nat)

/-- The polling loop of `company_research/app.py` lines 88–119, with `fuel`
remaining attempts and `i` attempts already made; `time.sleep(2)` runs on
every attempt that does not break. -/
def companyPollAux (provider : Nat → ProviderStep) : Nat → Nat → CompanyPollOutcome
  | 0, i => .timedOut i (2 * i)
  | fuel + 1, i =>
    match provider i with
    | .raise m => .raised m (i + 1)
    | .ready raw => .got raw (i + 1) (2 * i)
    | .pending => companyPollAux provider fuel (i + 1)

/-- `max_retries = 30` polling loop. -/
def companyPoll (provider : Nat → ProviderStep) : CompanyPollOutcome :=
  companyPollAux provider 30 0

/-- The mock company data returned when no `PARALLEL_AI_API_KEY` is set. -/
def mockCompanyData (company_name : Option String) : Json :=
  .obj [
    ("name", .str (if truthy company_name then getS company_name else "Tech Corp")),
    ("industry", .str "Software Engineering"),
    ("culture", .str "Product-led, engineering-first culture."),
    ("recent_news", .str "Recently announced expansion.")]

/-- Lines 125–130: keep only `company_data["content"]` when the payload is a
dict with a `"content"` key. -/
def extractContent (d : Json) : Json :=
  match d with
  | .obj fs =>
    match lookupField fs "content" with
    | some v => v
    | none => .obj fs
  | _ => d

/-- Line 133: the fallback cache key derived from the company display name —
lower-cased, spaces replaced by underscores, prefixed with the reserved
literal `name:`. -/
def companyFallbackKey (name : String) : String :=
  "name:" ++ pyReplace (pyLower name) ' ' '_'

structure CompanyEnv where
  tableNameSet : Bool
  personaTableSet : Bool
  apiKeySet : Bool

structure CompanyEvent where
  company_url : Option String
  company_name : Option String
  session_id : Option String

/-- Behaviour of the stores and the provider during one company-research
invocation. Every `Except.error` stands for the corresponding Python call
raising. -/
structure CompanyBehavior where
  cacheGet : Except String Unit
  linkOnHit : Except String Unit
  createTask : Except String Unit
  provider : Nat → ProviderStep
  put : Except String Unit
  link : Except String Unit

inductive CompanyResult where
  | err (statusCode : Nat) (body : String)
  | ok (session_id : Option String) (company_url : Option String)

structure CompanyOut where
  result : CompanyResult
  companies : CompanyTable
  sessions : SessionTable
  externalCalls : Nat

/-- `json.dumps({"error": msg})` bodies of the company handler. -/
def errBody (msg : String) : String :=
  jsonDumpCompact (.obj [("error", .str msg)])

/-- Intermediate outcome of the fetch phase (step 2 of the handler). -/
inductive CompanyFetchStep where
  | fail (r : CompanyResult) (calls : Nat)
  | gotData (d : Json) (calls : Nat)

/-- The fetch phase: mock data without an API key, otherwise submit and poll.
`calls` counts external provider requests (task creation plus result polls). -/
def companyFetch (env : CompanyEnv) (ev : CompanyEvent) (b : CompanyBehavior) :
    CompanyFetchStep :=
  if !env.apiKeySet then .gotData (mockCompanyData ev.company_name) 0
  else
    match b.createTask with
    | .error m => .fail (.err 500 (errBody ("Parallel AI Failure: " ++ m))) 1
    | .ok () =>
      match companyPoll b.provider with
      | .raised m n => .fail (.err 500 (errBody ("Parallel AI Failure: " ++ m))) (1 + n)
      | .timedOut n _ =>
        .fail (.err 500 (errBody "Parallel AI Failure: Parallel AI task timed out.")) (1 + n)
      | .got raw n _ => .gotData (normalizeOutput raw) (1 + n)

/-- `lambda_handler` of `company_research/app.py`. The `Except` layer carries
a Python exception escaping the handler; every risky call here is wrapped in
a `try/except` in the source, so each `error` is consumed by a branch that
mirrors the corresponding `except` clause. -/
def company_lambda_handler (env : CompanyEnv) (ev : CompanyEvent)
    (b : CompanyBehavior) (companies : CompanyTable) (sessions : SessionTable)
    (now : Nat) : Except String CompanyOut :=
  if !env.tableNameSet then
    .ok ⟨.err 500 "COMPANY_TABLE_NAME environment variable not set", companies, sessions, 0⟩
  else if !truthy ev.company_url && !truthy ev.company_name then
    .ok ⟨.err 400 (errBody "Either company_url or company_name is required"), companies, sessions, 0⟩
  else
    -- 1. global cache check (a raising read is caught and treated as a miss)
    match (if truthy ev.company_url then
        match b.cacheGet with
        | .error _ => none
        | .ok () => List.lookup (getS ev.company_url) companies
      else (none : Option CompanyRecord)) with
    | some _ =>
      let sessions' :=
        if truthy ev.session_id && env.personaTableSet then
          match b.linkOnHit with
          | .error _ => sessions
          | .ok () =>
            updateSession sessions (getS ev.session_id)
              (fun r => linkCompanyUrl r (getS ev.company_url))
        else sessions
      .ok ⟨.ok ev.session_id ev.company_url, companies, sessions', 0⟩
    | none =>
      -- 2. fetch from the provider
      match companyFetch env ev b with
      | .fail r calls => .ok ⟨r, companies, sessions, calls⟩
      | .gotData d calls =>
        -- 3. save to global storage and link to the session; every failure
        -- in this block is caught and only logged
        let save_data := extractContent d
        let final_key :=
          if truthy ev.company_url then getS ev.company_url
          else companyFallbackKey (getS ev.company_name)
        match b.put with
        | .error _ => .ok ⟨.ok ev.session_id (some final_key), companies, sessions, calls⟩
        | .ok () =>
          let companies' := putAssoc companies final_key ⟨save_data, toString now⟩
          if truthy ev.session_id && env.personaTableSet then
            match b.link with
            | .error _ => .ok ⟨.ok ev.session_id (some final_key), companies', sessions, calls⟩
            | .ok () =>
              .ok ⟨.ok ev.session_id (some final_key), companies',
                updateSession sessions (getS ev.session_id)
                  (fun r => linkCompanyUrl r final_key), calls⟩
          else .ok ⟨.ok ev.session_id (some final_key), companies', sessions, calls⟩

/-! ### Interviewer research (`interviewer_research/app.py`) -/

/-- `re.search(r"linkedin\.com/in/([^/?]+)", url)`: scan left to right for the
literal `linkedin.com/in/` followed by at least one character other than
`/` or `?`; the capture group is that maximal run. -/
def extractLinkedinIdAux : List Char → Option String
  | [] => none
  | c :: rest =>
    if List.isPrefixOf "linkedin.com/in/".data (c :: rest) then
      let grp := ((c :: rest).drop 16).takeWhile (fun ch => ch != '/' && ch != '?')
      if grp.isEmpty then extractLinkedinIdAux rest else some ⟨grp⟩
    else extractLinkedinIdAux rest

/-- `extract_linkedin_id` (lines 66–73): `None` input or no match gives `None`. -/
def extract_linkedin_id : Option String → Option String
  | none => none
  | some url => if url.isEmpty then none else extractLinkedinIdAux url.data

example : extract_linkedin_id (some "https://www.linkedin.com/in/jdoe/") = some "jdoe" := rfl
example : extract_linkedin_id (some "https://linkedin.com/in/a-b?trk=x") = some "a-b" := rfl
example : extract_linkedin_id (some "https://example.com/jdoe") = none := rfl
example : extract_linkedin_id none = none := rfl

/-- One iteration of the Scrapingdog profile call: an HTTP response whose
body may fail to parse as JSON, a `requests` timeout, or another exception. -/
inductive LIStep where
  | http (code : Nat) (body : Except String Json) (text : String)
  | timeoutExc
  | exc (msg : String)

/-- Result of `fetch_linkedin_profile`: the `(data, err)` pair of the source
plus the number of HTTP requests made and the seconds spent in `time.sleep`. -/
structure LIFetchRes where
  data : Option Json
  err : Option String
  requests : Nat
  sleepSeconds : Nat

/-- The 15-attempt loop of `fetch_linkedin_profile` (lines 96–128): 200 returns
the parsed body (a parse failure is caught and returned as the error string),
202 sleeps 10 s and retries, any other status returns `"{code}: {text}"`
immediately, a `requests` timeout sleeps 10 s and consumes an attempt, any
other exception returns its message; an exhausted budget returns the
distinct message `"Timed out waiting for scrape"`. -/
def liFetchAux (provider : Nat → LIStep) : Nat → Nat → LIFetchRes
  | 0, i => ⟨none, some "Timed out waiting for scrape", i, 10 * i⟩
  | fuel + 1, i =>
    match provider i with
    | .http code body text =>
      if code = 200 then
        match body with
        | .ok j => ⟨some j, none, i + 1, 10 * i⟩
        | .error m => ⟨none, some m, i + 1, 10 * i⟩
      else if code = 202 then liFetchAux provider fuel (i + 1)
      else ⟨none, some (toString code ++ ": " ++ text), i + 1, 10 * i⟩
    | .timeoutExc => liFetchAux provider fuel (i + 1)
    | .exc m => ⟨none, some m, i + 1, 10 * i⟩

/-- `fetch_linkedin_profile` with its fixed budget `max_attempts = 15`. -/
def fetch_linkedin_profile (provider : Nat → LIStep) : LIFetchRes :=
  liFetchAux provider 15 0

structure InterviewerEvent where
  interviewer_name : Option String
  company_name : Option String
  interviewer_company : Option String
  interviewer_linkedin_url : Option String
  session_id : Option String

/-- Behaviour of the stores and providers during one interviewer-research
invocation. `search` is the overall result of `find_linkedin_url` (its
internal request failure is caught in the source and collapses to `None`);
`llm` is the result of `generate_persona_profile` (`None` on any failure). -/
structure InterviewerBehavior where
  search : Option String
  cacheGet : Except String Unit
  provider : Nat → LIStep
  llm : Option String
  put : Except String Unit

/-- Structured results of the interviewer handler; all carry statusCode 200
except the configuration error. -/
inductive InterviewerResult where
  | configError (statusCode : Nat) (body : String)
  | skipped (session_id : Option String) (message : String)
  | failedOptional (session_id : Option String) (message : String)
  | success (session_id : Option String) (interviewer_linkedin_id : String)
      (interviewer_linkedin_url : String)

structure InterviewerOut where
  result : InterviewerResult
  interviewers : LITable

/-- `lambda_handler` of `interviewer_research/app.py`. Every risky call is
wrapped in a `try/except` in the source, so no behaviour makes the handler
raise. -/
def interviewer_lambda_handler (tableNameSet : Bool) (ev : InterviewerEvent)
    (b : InterviewerBehavior) (interviewers : LITable) (now : Nat) :
    Except String InterviewerOut :=
  if !tableNameSet then
    .ok ⟨.configError 500 "LINKEDIN_TABLE_NAME not set", interviewers⟩
  else
    -- 1. optional inputs (`company_name = event.get("company_name") or
    -- event.get("interviewer_company")`)
    if !truthy ev.interviewer_linkedin_url &&
        !(truthy ev.interviewer_name &&
          truthy (orPy ev.company_name ev.interviewer_company)) then
      .ok ⟨.skipped ev.session_id "No interviewer details provided", interviewers⟩
    else
      -- 2. resolve the LinkedIn URL if missing (`if not linkedin_url` treats a
      -- falsy search result, None or "", as not found)
      match (if truthy ev.interviewer_linkedin_url then ev.interviewer_linkedin_url
        else if truthy b.search then b.search else none) with
      | none => .ok ⟨.failedOptional ev.session_id "LinkedIn profile not found", interviewers⟩
      | some url =>
        -- 3. extract the LinkedIn id (authoritative identifier)
        match extract_linkedin_id (some url) with
        | none => .ok ⟨.failedOptional ev.session_id "Invalid LinkedIn URL format", interviewers⟩
        | some lid =>
          -- 4. global cache lookup (a raising read is caught, treated as a miss)
          match (match b.cacheGet with
            | .error _ => (none : Option LIRecord)
            | .ok () => List.lookup lid interviewers) with
          | some _ => .ok ⟨.success ev.session_id lid url, interviewers⟩
          | none =>
            -- 5. fetch a fresh profile
            match (fetch_linkedin_profile b.provider).err with
            | some e =>
              .ok ⟨.failedOptional ev.session_id ("Scraping failed: " ++ e), interviewers⟩
            | none =>
              -- 6./7. generate the persona profile and save both (a raising
              -- put is caught and only logged)
              match b.put with
              | .error _ => .ok ⟨.success ev.session_id lid url, interviewers⟩
              | .ok () =>
                .ok ⟨.success ev.session_id lid url,
                  putAssoc interviewers lid
                    ⟨(fetch_linkedin_profile b.provider).data.getD .null, b.llm, now⟩⟩

/-! ### Persona generator (`persona_generator/app.py`)

The prompt templates below are the literal segments of the `base_context`
f-string (lines 140–213), the four stage suffixes (lines 216–330) and the
fallback-profile f-string (lines 119–125) of the source, with the
interpolation holes split out. -/

def basePartA : String :=
    "\nYou are now impersonating a REAL professional human interviewer.\n\nThis is not a role-play. This is an identity grounding task.\n\n────────────────────────────────────\n1. IDENTITY & STYLE (AUTHORITATIVE)\n────────────────────────────────────\nYou MUST behave exactly as the following LinkedIn Person.\nYour professional background, seniority, communication style, and decision-making approach must be reflected in everything you say.\n\n# GENERATED PERSONA PROFILE (SOURCE OF TRUTH FOR PERSONALITY)\n"

def basePartB : String :=
    "\n\n# RAW DATA (SUPPORTING EVIDENCE)\n"

def basePartC : String :=
    "\n\nFROM THIS DATA, INFER AND EMBODY:\n- Your exact tone: Are you academic? Startup-gritty? Corporate-formal?\n- Your seniority: Do not act junior if you are a VP. Do not act distant if you are a peer.\n- Your values: What engineering/product principles matter to you personally?\n\nSTYLE GUIDELINES:\n- Speak in FIRST PERSON (\"I\", \"me\", \"my\") at all times.\n- Be professional but conversational. Do not sound like a robot or a generic AI.\n- You are busy but engaged.\n- NEVER mention that you are an AI, a language model, or that you have \"instructions\".\n- NEVER mention that you are \"reading from a file\" or \"have access to data\". Act as if this is your natural knowledge.\n\n────────────────────────────────────\n2. COMPANY CONTEXT\n────────────────────────────────────\nYou represent the following company. Your expectations align with its culture and standards.\n\n# COMPANY CONTEXT\n"

def basePartD : String :=
    "\n\n────────────────────────────────────\n3. JOB CONTEXT (PRIMARY SOURCE OF TRUTH)\n────────────────────────────────────\nYou are evaluating the candidate for THIS SPECIFIC ROLE.\n\n# JOB DESCRIPTION\n"

def basePartE : String :=
    "\n\n────────────────────────────────────\n4. CANDIDATE INFO\n────────────────────────────────────\nYou have reviewed their resume. Use this to conduct a targeted probe, not a generic sweep.\n\n# CANDIDATE RESUME\n"

def basePartF : String :=
    "\n\n────────────────────────────────────\n5. CRITICAL BEHAVIORAL RULES (STRICT)\n────────────────────────────────────\nYOU ARE A STRICT EVALUATOR. Your job is to gather CONCLUSIVE EVIDENCE.\n\nANTI-GUIDANCE RULES:\n- NEVER give hints or help the candidate\n- NEVER explain what you\x27re looking for\n- NEVER say \"good answer\" or validate responses\n- If they struggle, note it internally but do NOT rescue them\n\nANTI-LOOP RULES:\n- Ask maximum 2 follow-up questions on any single topic\n- If still unclear after 2 attempts, move on and note the gap\n- Do NOT repeat similar questions in different words\n\nEVALUATION FOCUS:\n- Gather EVIDENCE, not impressions\n- Note specific examples, names, metrics, dates\n- Silence is data - if they can\x27t answer, that\x27s conclusive\n"

def introSuffix : String :=
    "\n────────────────────────────────────\nCURRENT STAGE: INTRODUCTION (0-15% of interview)\n────────────────────────────────────\nOBJECTIVE: Quick context gathering and claim identification.\n\nYOUR TASKS:\n1. Briefly introduce yourself (name, role, one sentence about your background)\n2. State the purpose: \"Today I\x27ll be assessing your fit for [role]. This will be a structured conversation.\"\n3. Ask ONE open question: \"Walk me through your background and what brings you to this role.\"\n4. LISTEN for claims to probe later:\n   - Leadership claims → Note for behavioral stage\n   - Technical expertise claims → Note for technical stage\n   - Impact/metrics claims → Verify in technical stage\n\nDO NOT:\n- Spend more than 2-3 minutes on pleasantries\n- Ask multiple ice-breaker questions\n- Give any preview of what\x27s coming\n\nTRANSITION: Once you have their background summary, state \"Let\x27s dive into the technical details.\"\n"

def technicalSuffix : String :=
    "\n────────────────────────────────────\nCURRENT STAGE: TECHNICAL (15-70% of interview)\n────────────────────────────────────\nOBJECTIVE: Deep skill verification with challenge questions.\n\nYOUR TASKS:\n1. Compare their resume claims to job requirements → Find GAPS to probe\n2. Ask about specific projects: \"Tell me about [project X]. What was YOUR specific contribution?\"\n3. Go deep on technical decisions: \"Why did you choose [technology X] over [alternative Y]?\"\n4. Challenge answers: \"That sounds like a standard approach. What made YOUR implementation different?\"\n5. Test limits: \"What went wrong? How did you debug it? What would you do differently?\"\n\nQUESTIONING PATTERN:\n- Start broad → Drill down → Challenge → Assess response → Move on\n- Maximum 2 follow-ups per topic, then move to next topic\n- If they can\x27t answer after 2 attempts, say \"Let\x27s move on\" and note the gap\n\nUSE end_interview TOOL IF:\n- Candidate cannot answer 3+ core technical questions → Strong signal of mismatch\n- Candidate demonstrates exceptional depth early → May have conclusive positive evidence\n\nDO NOT:\n- Accept vague answers like \"I worked on the backend\"\n- Let them dodge specifics about their contribution vs team\x27s\n- Explain concepts or help them understand questions\n"

def behavioralSuffix : String :=
    "\n────────────────────────────────────\nCURRENT STAGE: BEHAVIORAL (70-90% of interview)\n────────────────────────────────────\nOBJECTIVE: STAR method probes for evidence of competencies.\n\nYOUR TASKS:\n1. Probe leadership claims: \"You mentioned leading a team. Describe a conflict you resolved.\"\n2. Use STAR framework silently - listen for:\n   - Situation: Was it real and specific?\n   - Task: What was THEIR responsibility?\n   - Action: What did THEY do (not the team)?\n   - Result: What was the measurable outcome?\n3. If STAR is incomplete, ask ONE targeted follow-up: \"What was the specific outcome?\"\n4. Test failure handling: \"Tell me about a project that failed. What was your role in that?\"\n\nCHALLENGE WEAK ANSWERS:\n- \"You said the team succeeded. What did YOU specifically do?\"\n- \"You mentioned communication issues. Give me a specific example.\"\n- \"That result sounds like the team\x27s. What was YOUR measurable impact?\"\n\nUSE end_interview TOOL IF:\n- Pattern of taking credit for team work without specifics\n- Cannot provide any concrete behavioral examples\n- Consistently strong STAR responses across multiple questions\n\nDO NOT:\n- Accept \"we\" answers without probing for \"I\"\n- Let them skip the Result part of STAR\n- Coach them on how to answer behavioral questions\n"

def conclusionSuffix : String :=
    "\n────────────────────────────────────\nCURRENT STAGE: CONCLUSION (90-100% of interview)\n────────────────────────────────────\nOBJECTIVE: Final assessment and wrap-up.\n\nYOUR TASKS:\n1. Ask if they have questions for you (maximum 2-3 questions allowed)\n2. Answer their questions briefly and professionally\n3. Thank them for their time\n4. After the conclusion, USE THE end_interview TOOL with your decision\n\nDECISION FRAMEWORK:\n- strong_hire: Exceeded expectations in both technical AND behavioral\n- hire: Met expectations in technical AND behavioral, no red flags\n- no_hire: Significant gaps in technical OR behavioral, OR red flags\n- strong_no_hire: Failed multiple technical questions OR major behavioral concerns\n\nCONFIDENCE SCORING:\n- 90-100: Very clear evidence, no ambiguity\n- 70-89: Good evidence with minor gaps\n- 50-69: Mixed signals, would benefit from another round\n- Below 50: Insufficient information gathered\n\nYOU MUST CALL end_interview TOOL before or immediately after saying goodbye.\nThis captures your assessment while the interview is fresh.\n\nDO NOT:\n- Give the candidate any feedback on their performance\n- Hint at the outcome\n- Ask additional evaluation questions in this stage\n"

def fallbackProfileA : String :=
    "\n        ## Bio\n        "

def fallbackProfileB : String :=
    "\n        \n        ## Role\n        "

def fallbackProfileC : String :=
    "\n        "

/-- The fixed literal generic persona substituted when no interviewer key is
available (lines 99–111). -/
def genericPersona : Json :=
  .obj [
    ("name", .str "Alex Mercer"),
    ("headline", .str "Senior Engineering Manager"),
    ("summary", .str "Experienced engineering leader with over 15 years in software development, cloud architecture, and team building. Passionate about scalable systems and mentorship."),
    ("experience", .arr [
      .obj [
        ("title", .str "Senior Engineering Manager"),
        ("company", .str "Tech Innovations Inc."),
        ("description", .str "Leading cross-functional teams to deliver high-scale distributed systems.")]]),
    ("skills", .arr [.str "System Design", .str "Leadership", .str "Python", .str "Cloud Architecture"])]

/-- Python `value.get(key)` on a value that may not be a dict: raises
`AttributeError` on a non-dict (this call sits outside every `try` block in
the handler). -/
def pyDictGet (v : Json) (key : String) : Except String (Option Json) :=
  match v with
  | .obj fs => .ok (lookupField fs key)
  | _ => .error ("AttributeError: object has no attribute " ++ squoteChar.toString ++ "get" ++ squoteChar.toString)

/-- The fallback persona profile (lines 119–125): Bio from the raw `summary`
field, Role from the raw `headline` field, with the fixed literal defaults
when those keys are missing. Raises when the research payload is not a dict. -/
def fallbackPersonaProfile (research : Json) : Except String String :=
  match pyDictGet research "summary" with
  | .error e => .error e
  | .ok sv =>
    match pyDictGet research "headline" with
    | .error e => .error e
    | .ok hv =>
      .ok (fallbackProfileA ++
        (match sv with | some v => pyStr v | none => "Experienced Professional") ++
        fallbackProfileB ++
        (match hv with | some v => pyStr v | none => "Hiring Manager") ++
        fallbackProfileC)

/-- The shared base context (step 6 of the Stage Prompt Builder): every input
is substituted verbatim into the fixed section template. -/
def personaBaseContext (profile : String) (research : Json) (company : Json)
    (jd : String) (resume : String) : String :=
  basePartA ++ profile ++ basePartB ++ jsonDumps2 research ++ basePartC ++
    jsonDumps2 company ++ basePartD ++ jd ++ basePartE ++ resume ++ basePartF

/-- One item of a Step-Functions list event. -/
structure PEItem where
  session_id : Option String
  interviewer_linkedin_id : Option String
  company_url : Option String

/-- The persona generator accepts a single request object or a list of
prior-stage results. -/
inductive PersonaEvent where
  | objEvent (session_id : Option String) (interviewer_linkedin_id : Option String)
      (company_url : Option String)
  | listEvent (items : List PEItem)

/-- Step 1 of the handler (lines 31–51): extract `session_id`,
`interviewer_linkedin_id` and `company_url` from either event shape; in the
list shape each truthy field of a later item overrides the earlier value. -/
def resolveInputs : PersonaEvent → Option String × Option String × Option String
  | .objEvent s l c => (s, l, c)
  | .listEvent items =>
    items.foldl
      (fun acc it =>
        match acc with
        | (s, l, c) =>
          (if truthy it.session_id then it.session_id else s,
           if truthy it.interviewer_linkedin_id then it.interviewer_linkedin_id else l,
           if truthy it.company_url then it.company_url else c))
      (none, none, none)

/-- Behaviour of the stores during one persona-generator invocation.
`sessionGet` is the session-record read of line 61 — the only store call of
the three handlers that is not wrapped in a `try`. -/
structure PersonaBehavior where
  sessionGet : Except String Unit
  liGet : Except String Unit
  coGet : Except String Unit
  saveUpdate : Except String Unit

/-- Step 3 (lines 72–114): fetch the contact research and the pre-generated
persona profile, substituting the generic persona when no linkedin id is
given; a raising table read is caught and leaves the initial values
`({}, "")`. Returns `(interviewer_research, ai_generated_persona_profile)`. -/
def personaContact (lid : Option String) (b : PersonaBehavior) (li : LITable) :
    Json × String :=
  if truthy lid then
    match b.liGet with
    | .error _ => (.obj [], "")
    | .ok () =>
      match List.lookup (getS lid) li with
      | none => (.obj [], "")
      | some rec =>
        let research :=
          match rec.data with
          | .arr (x :: _) => x
          | d => d
        (research, (rec.persona_profile.getD ""))
  else (genericPersona, "")

/-- Step 5 (lines 127–137): fetch the company research data; absence or a
raising read degrades to the empty context. -/
def personaCompany (curl : Option String) (b : PersonaBehavior) (co : CompanyTable) :
    Json :=
  if truthy curl then
    match b.coGet with
    | .error _ => .obj []
    | .ok () =>
      match List.lookup (getS curl) co with
      | none => .obj []
      | some rec => rec.data
  else .obj []

inductive PersonaResult where
  | err (statusCode : Nat) (body : String)
  | ready (session_id : Option String)

/-- `lambda_handler` of `persona_generator/app.py`. The session-record read
(line 61) is not wrapped in a `try`, so its raise propagates out of the
handler (`Except.error`); the same is true of the fallback-profile `.get`
calls on a non-dict payload (line 121). All four prompts plus status READY
are persisted in one single `update_item`. -/
def persona_lambda_handler (tablesConfigured : Bool) (event : PersonaEvent)
    (b : PersonaBehavior) (sessions : SessionTable) (li : LITable)
    (co : CompanyTable) (now : Nat) :
    Except String (PersonaResult × SessionTable) :=
  if !tablesConfigured then
    .ok (.err 500 "Missing table configuration", sessions)
  else
    match resolveInputs event with
    | (sid?, lid?, curl?) =>
      if !truthy sid? then .ok (.err 400 "session_id is required", sessions)
      else
        let sid := getS sid?
        -- 2. load the session record: NOT in a try/except — a raise propagates
        match b.sessionGet with
        | .error e => .error e
        | .ok () =>
          match List.lookup sid sessions with
          | none =>
            .ok (.err 404 (errBody ("Session " ++ sid ++ " not found")), sessions)
          | some session_item =>
            let job_description := session_item.job_description.getD ""
            match personaContact lid? b li with
            | (interviewer_research, profile0) =>
              -- 4. fallback profile when the stored profile is empty/absent;
              -- the `.get` calls are outside every try and can raise
              match (if profile0.isEmpty then fallbackPersonaProfile interviewer_research
                else .ok profile0) with
              | .error e => .error e
              | .ok ai_profile =>
                let company_research := personaCompany curl? b co
                let resume := session_item.resume_text.getD "No resume provided."
                let base := personaBaseContext ai_profile interviewer_research
                  company_research job_description resume
                -- 8. persist all four prompts + READY in one atomic update
                match b.saveUpdate with
                | .error e =>
                  .ok (.err 500 (errBody ("Failed to save persona: " ++ e)), sessions)
                | .ok () =>
                  .ok (.ready sid?,
                    updateSession sessions sid
                      (fun r => savePromptsRecord r (base ++ introSuffix)
                        (base ++ technicalSuffix) (base ++ behavioralSuffix)
                        (base ++ conclusionSuffix) now))

/-! ### Helper lemmas -/

theorem strContains_append_right {s t pat : String} (h : strContains t pat) :
    strContains (s ++ t) pat := by
  unfold strContains at *
  rw [String.data_append]
  exact h.trans (List.suffix_append s.data t.data).isInfix

theorem strContains_append_left {s t pat : String} (h : strContains s pat) :
    strContains (s ++ t) pat := by
  unfold strContains at *
  rw [String.data_append]
  exact h.trans (List.prefix_append s.data t.data).isInfix

theorem lookup_putAssoc_self {α : Type} (tbl : List (String × α)) (k : String) (v : α) :
    (putAssoc tbl k v).lookup k = some v := by
  simp [putAssoc, List.lookup]

/-- The fallback key never collides with an `http(s)://` URL key. -/
def isUrlLikeKey (s : String) : Bool :=
  List.isPrefixOf "http://".data s.data || List.isPrefixOf "https://".data s.data

theorem companyFallbackKey_data (name : String) :
    (companyFallbackKey name).data =
      'n' :: 'a' :: 'm' :: 'e' :: ':' :: (pyReplace (pyLower name) ' ' '_').data := by
  unfold companyFallbackKey
  rw [String.data_append]
  rfl

/-! ### C5 — key-space separation -/

/-- C5: the fallback cache key (lower-cased, spaces replaced, prefixed with
the reserved prefix `name:`) never equals any `http(s)://` URL key; in
particular `"Tech Corp"` gives `"name:tech_corp"`, distinct from
`"https://tech-corp.com"`. -/
theorem c5_fallback_key_separation :
    (∀ (name url : String), isUrlLikeKey url = true → companyFallbackKey name ≠ url)
    ∧ companyFallbackKey "Tech Corp" = "name:tech_corp"
    ∧ companyFallbackKey "Tech Corp" ≠ "https://tech-corp.com" := by
  have main : ∀ (name url : String), isUrlLikeKey url = true → companyFallbackKey name ≠ url := by
    intro name url hurl heq
    have hdata : (companyFallbackKey name).data = url.data := by rw [heq]
    rw [companyFallbackKey_data] at hdata
    unfold isUrlLikeKey at hurl
    rcases Bool.or_eq_true_iff.mp hurl with h | h
    · obtain ⟨t, ht⟩ := List.isPrefixOf_iff_prefix.mp h
      rw [← ht] at hdata
      simp at hdata
    · obtain ⟨t, ht⟩ := List.isPrefixOf_iff_prefix.mp h
      rw [← ht] at hdata
      simp at hdata
  refine ⟨main, by decide, ?_⟩
  apply main
  decide

/-- Witness for C5 at the concrete inputs of the claim. -/
theorem c5_fallback_key_separation_witness :
    isUrlLikeKey "https://tech-corp.com" = true ∧
    companyFallbackKey "Tech Corp" ≠ "https://tech-corp.com" :=
  ⟨by decide, c5_fallback_key_separation.1 "Tech Corp" "https://tech-corp.com" (by decide)⟩

/-! ### C4 — bounded polling with a distinct timeout outcome -/

def CompanyPollOutcome.calls : CompanyPollOutcome → Nat
  | .got _ n _ => n
  | .raised _ n => n
  | .timedOut n _ => n

theorem companyPollAux_pending (p : Nat → ProviderStep)
    (hp : ∀ n, p n = ProviderStep.pending) :
    ∀ fuel i, companyPollAux p fuel i = .timedOut (i + fuel) (2 * (i + fuel)) := by
  intro fuel
  induction fuel with
  | zero => intro i; simp [companyPollAux]
  | succ f ih =>
    intro i
    rw [companyPollAux, hp i, ih (i + 1)]
    have : i + 1 + f = i + (f + 1) := by omega
    rw [this]

theorem companyPollAux_calls_le (p : Nat → ProviderStep) :
    ∀ fuel i, (companyPollAux p fuel i).calls ≤ i + fuel := by
  intro fuel
  induction fuel with
  | zero => intro i; simp [companyPollAux, CompanyPollOutcome.calls]
  | succ f ih =>
    intro i
    rw [companyPollAux]
    match hp : p i with
    | .raise m =>
      show i + 1 ≤ i + (f + 1)
      omega
    | .ready raw =>
      show i + 1 ≤ i + (f + 1)
      omega
    | .pending =>
      calc (companyPollAux p f (i + 1)).calls ≤ i + 1 + f := ih (i + 1)
        _ ≤ i + (f + 1) := by omega

theorem liFetchAux_inprogress (p : Nat → LIStep)
    (hp : ∀ n, ∃ body text, p n = LIStep.http 202 body text) :
    ∀ fuel i, liFetchAux p fuel i =
      ⟨none, some "Timed out waiting for scrape", i + fuel, 10 * (i + fuel)⟩ := by
  intro fuel
  induction fuel with
  | zero => intro i; simp [liFetchAux]
  | succ f ih =>
    intro i
    obtain ⟨body, text, hstep⟩ := hp i
    rw [liFetchAux, hstep]
    simp only [show (202 = 200) = False by simp, if_false, if_true, reduceIte]
    rw [ih (i + 1)]
    have : i + 1 + f = i + (f + 1) := by omega
    rw [this]

theorem liFetchAux_requests_le (p : Nat → LIStep) :
    ∀ fuel i, (liFetchAux p fuel i).requests ≤ i + fuel := by
  intro fuel
  induction fuel with
  | zero => intro i; simp [liFetchAux]
  | succ f ih =>
    intro i
    rw [liFetchAux]
    match hp : p i with
    | .http code body text =>
      by_cases h200 : code = 200
      · subst h200
        match body with
        | .ok j =>
          show i + 1 ≤ i + (f + 1)
          omega
        | .error m =>
          show i + 1 ≤ i + (f + 1)
          omega
      · by_cases h202 : code = 202
        · subst h202
          simp only [h200, if_false, reduceIte]
          calc (liFetchAux p f (i + 1)).requests ≤ i + 1 + f := ih (i + 1)
            _ ≤ i + (f + 1) := by omega
        · simp only [h200, h202, if_false, reduceIte]
          show i + 1 ≤ i + (f + 1)
          omega
    | .timeoutExc =>
      calc (liFetchAux p f (i + 1)).requests ≤ i + 1 + f := ih (i + 1)
        _ ≤ i + (f + 1) := by omega
    | .exc m =>
      show i + 1 ≤ i + (f + 1)
      omega

/-- C4: both poll loops terminate within their fixed attempt budgets
(15 attempts / 10-second pauses for the interviewer profile fetch,
30 attempts / 2-second pauses for the company research poll) and an
always-in-progress provider yields the distinct timeout outcome — for the
profile fetch the error string `"Timed out waiting for scrape"`, for the
company poll the timeout branch that the fetch phase maps to the fatal
`"Parallel AI Failure: Parallel AI task timed out."` result. -/
theorem c4_poll_budget (pli : Nat → LIStep) (pco : Nat → ProviderStep)
    (env : CompanyEnv) (ev : CompanyEvent) (b : CompanyBehavior)
    (hli : ∀ n, ∃ body text, pli n = LIStep.http 202 body text)
    (hco : ∀ n, pco n = ProviderStep.pending)
    (henv : env.apiKeySet = true) (hb : b.provider = pco)
    (hcreate : b.createTask = .ok ()) :
    fetch_linkedin_profile pli =
      ⟨none, some "Timed out waiting for scrape", 15, 150⟩
    ∧ companyPoll pco = .timedOut 30 60
    ∧ companyFetch env ev b =
        .fail (.err 500 (errBody "Parallel AI Failure: Parallel AI task timed out.")) 31
    ∧ (∀ q, (fetch_linkedin_profile q).requests ≤ 15)
    ∧ (∀ q, (companyPoll q).calls ≤ 30) := by
  have h1 : fetch_linkedin_profile pli =
      ⟨none, some "Timed out waiting for scrape", 15, 150⟩ := by
    unfold fetch_linkedin_profile
    rw [liFetchAux_inprogress pli hli 15 0]
  have h2 : companyPoll pco = .timedOut 30 60 := by
    unfold companyPoll
    rw [companyPollAux_pending pco hco 30 0]
  refine ⟨h1, h2, ?_, ?_, ?_⟩
  · unfold companyFetch
    rw [henv, hcreate, hb, h2]
    rfl
  · intro q
    exact liFetchAux_requests_le q 15 0
  · intro q
    exact companyPollAux_calls_le q 30 0

/-- Witness for C4 at a concrete always-in-progress provider. -/
theorem c4_poll_budget_witness :
    (∀ n : Nat, ∃ body text, (fun _ : Nat => LIStep.http 202 (.ok .null) "") n =
      LIStep.http 202 body text)
    ∧ fetch_linkedin_profile (fun _ => LIStep.http 202 (.ok .null) "") =
        ⟨none, some "Timed out waiting for scrape", 15, 150⟩ := by
  have hli : ∀ n : Nat, ∃ body text, (fun _ : Nat => LIStep.http 202 (.ok .null) "") n =
      LIStep.http 202 body text := fun _ => ⟨.ok .null, "", rfl⟩
  refine ⟨hli, ?_⟩
  exact (c4_poll_budget (fun _ => LIStep.http 202 (.ok .null) "")
    (fun _ => ProviderStep.pending)
    ⟨true, true, true⟩ ⟨none, none, none⟩
    ⟨.ok (), .ok (), .ok (), fun _ => ProviderStep.pending, .ok (), .ok ()⟩
    hli (fun _ => rfl) rfl rfl rfl).1

/-! ### C7 — response normalization -/

/-- C7 counterexample: a JSON string that parses to a non-object is returned
as the parsed value, so normalization does not produce a dictionary-like
payload in all cases. -/
theorem c7_counterexample :
    normalizeOutput (.str "[1, 2]") = Json.arr [Json.num 1, Json.num 2]
    ∧ (normalizeOutput (.str "[1, 2]")).isObj = false := ⟨rfl, rfl⟩

/-- C7 (amended): normalization is total — structured-object extraction for
typed payloads, JSON parse then wrap-as-raw-string for strings — and always
yields a dictionary, except that a JSON string parsing to a non-object value
is returned as that parsed value. -/
theorem c7_normalization_amended (raw : RawOutput) :
    (normalizeOutput raw).isObj = true
    ∨ ∃ s j, raw = RawOutput.str s ∧ jsonLoads s = some j ∧ j.isObj = false
        ∧ normalizeOutput raw = j := by
  match raw with
  | .typed (.modelDump (.ok fs)) s => left; rfl
  | .typed (.modelDump (.error m)) s => left; rfl
  | .typed (.dictMethod (.ok fs)) s => left; rfl
  | .typed (.dictMethod (.error m)) s => left; rfl
  | .typed .neither s => left; rfl
  | .str s =>
    match hl : jsonLoads s with
    | none => left; simp [normalizeOutput, hl, Json.isObj]
    | some j =>
      match hj : j.isObj with
      | true =>
        left
        simp [normalizeOutput, hl, hj]
      | false =>
        right
        exact ⟨s, j, rfl, hl, hj, by simp [normalizeOutput, hl]⟩

/-! ### C3 — structured results vs. unhandled exceptions -/

theorem company_handler_never_raises (env : CompanyEnv) (ev : CompanyEvent)
    (b : CompanyBehavior) (cos : CompanyTable) (ses : SessionTable) (now : Nat) :
    ∃ out, company_lambda_handler env ev b cos ses now = .ok out := by
  unfold company_lambda_handler
  repeat' split
  all_goals exact ⟨_, rfl⟩

theorem interviewer_handler_never_raises (t : Bool) (ev : InterviewerEvent)
    (b : InterviewerBehavior) (li : LITable) (now : Nat) :
    ∃ out, interviewer_lambda_handler t ev b li now = .ok out := by
  unfold interviewer_lambda_handler
  repeat' split
  all_goals exact ⟨_, rfl⟩

theorem fallbackPersonaProfile_isObj {j : Json} (h : j.isObj = true) :
    ∃ s, fallbackPersonaProfile j = .ok s := by
  cases j <;> simp [Json.isObj] at h
  exact ⟨_, rfl⟩

/-- C3 counterexample: a raising session-record read (the `get_item` of
line 61 of `persona_generator/app.py`, which no `try` wraps) terminates the
prompt synthesis request with an unhandled exception instead of a
structured result. -/
theorem c3_counterexample :
    persona_lambda_handler true (.objEvent (some "s1") none none)
      ⟨.error "DynamoDB read failed", .ok (), .ok (), .ok ()⟩ [] [] [] 0 =
      .error "DynamoDB read failed" := rfl

/-- C3 (amended): the company research and interviewer research handlers
return a structured result for every event and every store/provider
behaviour; the prompt synthesis handler does too, provided its session-record
read does not raise and the fallback-profile construction is not applied to
a non-dict research payload (both sit outside every `try` block in the
source and propagate). -/
theorem c3_structured_results_amended :
    (∀ (env : CompanyEnv) (ev : CompanyEvent) (b : CompanyBehavior)
        (cos : CompanyTable) (ses : SessionTable) (now : Nat),
      ∃ out, company_lambda_handler env ev b cos ses now = .ok out)
    ∧ (∀ (t : Bool) (ev : InterviewerEvent) (b : InterviewerBehavior)
        (li : LITable) (now : Nat),
      ∃ out, interviewer_lambda_handler t ev b li now = .ok out)
    ∧ (∀ (cfg : Bool) (ev : PersonaEvent) (b : PersonaBehavior)
        (ses : SessionTable) (li : LITable) (co : CompanyTable) (now : Nat),
      b.sessionGet = .ok () →
      ((personaContact (resolveInputs ev).2.1 b li).2 ≠ "" ∨
        ((personaContact (resolveInputs ev).2.1 b li).1).isObj = true) →
      ∃ out, persona_lambda_handler cfg ev b ses li co now = .ok out) := by
  refine ⟨company_handler_never_raises, interviewer_handler_never_raises, ?_⟩
  intro cfg ev b ses li co now hget hprof
  unfold persona_lambda_handler
  cases cfg with
  | false => exact ⟨_, rfl⟩
  | true =>
    simp only [Bool.not_true, Bool.false_eq_true, if_false, reduceIte]
    rcases hres : resolveInputs ev with ⟨sid?, lid?, curl?⟩
    rw [hres] at hprof
    dsimp only at hprof ⊢
    split
    · exact ⟨_, rfl⟩
    rw [hget]
    dsimp only
    split
    · exact ⟨_, rfl⟩
    rcases hpc : personaContact lid? b li with ⟨research, profile0⟩
    rw [hpc] at hprof
    dsimp only at hprof ⊢
    by_cases hempty : profile0.isEmpty = true
    · have hobj : research.isObj = true := by
        rcases hprof with h | h
        · exact absurd (by rwa [String.isEmpty_iff] at hempty) h
        · exact h
      obtain ⟨prof, hfb⟩ := fallbackPersonaProfile_isObj hobj
      rw [if_pos hempty, hfb]
      dsimp only
      split
      · exact ⟨_, rfl⟩
      · exact ⟨_, rfl⟩
    · rw [if_neg hempty]
      dsimp only
      split
      · exact ⟨_, rfl⟩
      · exact ⟨_, rfl⟩

/-- Witness for C3 (amended), applying it at a concrete invocation of each
handler. -/
theorem c3_structured_results_amended_witness :
    (∃ out, company_lambda_handler ⟨true, true, false⟩ ⟨some "https://acme.com", none, some "s1"⟩
      ⟨.ok (), .ok (), .ok (), fun _ => .pending, .ok (), .ok ()⟩ [] [] 0 = .ok out)
    ∧ (∃ out, interviewer_lambda_handler true ⟨none, none, none, none, some "s1"⟩
      ⟨none, .ok (), fun _ => .timeoutExc, none, .ok ()⟩ [] 0 = .ok out)
    ∧ (∃ out, persona_lambda_handler true (.objEvent (some "s1") none none)
      ⟨.ok (), .ok (), .ok (), .ok ()⟩ [] [] [] 0 = .ok out) := by
  refine ⟨c3_structured_results_amended.1 _ _ _ _ _ _,
    c3_structured_results_amended.2.1 _ _ _ _ _, ?_⟩
  exact c3_structured_results_amended.2.2 true (.objEvent (some "s1") none none)
    ⟨.ok (), .ok (), .ok (), .ok ()⟩ [] [] [] 0 rfl
    (Or.inr (by rfl))

/-! ### C1 — atomic prompt persistence -/

theorem lookup_updateSession_self (tbl : SessionTable) (sid : String)
    (f : SessionRecord → SessionRecord) :
    ∃ r0, List.lookup sid (updateSession tbl sid f) = some (f r0) := by
  unfold updateSession
  cases List.lookup sid tbl
  · exact ⟨emptySessionRecord, lookup_putAssoc_self tbl sid _⟩
  · exact ⟨_, lookup_putAssoc_self tbl sid _⟩

theorem append_ne_empty_of_right (s t : String) (h : t ≠ "") : s ++ t ≠ "" := by
  intro he
  apply h
  have hd : s.data ++ t.data = [] := by
    rw [← String.data_append, he]
  apply String.ext
  rw [(List.append_eq_nil.mp hd).2]

/-- C1: the prompt synthesis handler returns READY only when all four stage
prompts, together with status READY, were written to the session record in
one single atomic update (the state either stays exactly as it was, or is
the result of that one `savePromptsRecord` update); and when the
persistence write raises the handler returns a fatal statusCode-500 error
(unless an earlier guard already failed the request) and the session table
is left completely unchanged. -/
theorem c1_atomic_prompt_persistence
    (cfg : Bool) (ev : PersonaEvent) (b : PersonaBehavior) (ses : SessionTable)
    (li : LITable) (co : CompanyTable) (now : Nat)
    (res : PersonaResult) (ses' : SessionTable)
    (hrun : persona_lambda_handler cfg ev b ses li co now = .ok (res, ses')) :
    (∀ s, res = PersonaResult.ready s →
      b.saveUpdate = .ok () ∧
      ∃ r p1 p2 p3 p4,
        List.lookup (getS s) ses' = some r ∧
        r.prompt_introduction = some p1 ∧ r.prompt_technical = some p2 ∧
        r.prompt_behavioral = some p3 ∧ r.prompt_conclusion = some p4 ∧
        r.status = some "READY" ∧
        p1 ≠ "" ∧ p2 ≠ "" ∧ p3 ≠ "" ∧ p4 ≠ "" ∧
        ses' = updateSession ses (getS s)
          (fun rec => savePromptsRecord rec p1 p2 p3 p4 now))
    ∧ (∀ e, b.saveUpdate = Except.error e →
        ses' = ses ∧ (∀ s, res ≠ PersonaResult.ready s) ∧
        (res = .err 500 (errBody ("Failed to save persona: " ++ e)) ∨
         res = .err 400 "session_id is required" ∨
         (∃ sid, res = .err 404 (errBody ("Session " ++ sid ++ " not found"))) ∨
         res = .err 500 "Missing table configuration")) := by
  unfold persona_lambda_handler at hrun
  split at hrun
  · -- configuration error
    injection hrun with h
    injection h with h1 h2
    subst h1; subst h2
    constructor
    · intro s hready; exact absurd hready (by simp)
    · intro e he
      exact ⟨rfl, fun s => by simp, Or.inr (Or.inr (Or.inr rfl))⟩
  rcases hres : resolveInputs ev with ⟨sid?, lid?, curl?⟩
  rw [hres] at hrun
  dsimp only at hrun
  split at hrun
  · -- missing session_id
    injection hrun with h
    injection h with h1 h2
    subst h1; subst h2
    constructor
    · intro s hready; exact absurd hready (by simp)
    · intro e he
      exact ⟨rfl, fun s => by simp, Or.inr (Or.inl rfl)⟩
  cases hsg : b.sessionGet with
  | error e0 => rw [hsg] at hrun; dsimp only at hrun; exact absurd hrun (by simp)
  | ok u =>
    cases u
    rw [hsg] at hrun
    dsimp only at hrun
    split at hrun
    · -- session not found
      injection hrun with h
      injection h with h1 h2
      subst h1; subst h2
      constructor
      · intro s hready; exact absurd hready (by simp)
      · intro e he
        exact ⟨rfl, fun s => by simp, Or.inr (Or.inr (Or.inl ⟨getS sid?, rfl⟩))⟩
    -- session found: profile resolution
    split at hrun
    · -- raising fallback-profile construction: contradicts hrun being ok
      exact absurd hrun (by simp)
    -- profile ok: the save step
    next ai_profile hprofE =>
      cases hsu : b.saveUpdate with
      | error e0 =>
        rw [hsu] at hrun
        dsimp only at hrun
        injection hrun with h
        injection h with h1 h2
        subst h1; subst h2
        constructor
        · intro s hready; exact absurd hready (by simp)
        · intro e he
          injection he with he0
          subst he0
          exact ⟨rfl, fun s => by simp, Or.inl rfl⟩
      | ok u =>
        cases u
        rw [hsu] at hrun
        dsimp only at hrun
        injection hrun with h
        injection h with h1 h2
        subst h1; subst h2
        constructor
        · intro s hready
          injection hready with hs
          subst hs
          refine ⟨rfl, ?_⟩
          obtain ⟨r0, hr0⟩ := lookup_updateSession_self ses _
            (fun rec => savePromptsRecord rec _ _ _ _ now)
          refine ⟨_, _, _, _, _, hr0, rfl, rfl, rfl, rfl, rfl, ?_, ?_, ?_, ?_, rfl⟩
          · exact append_ne_empty_of_right _ _ (by decide)
          · exact append_ne_empty_of_right _ _ (by decide)
          · exact append_ne_empty_of_right _ _ (by decide)
          · exact append_ne_empty_of_right _ _ (by decide)
        · intro e he
          exact absurd he (by simp)

/-- Witness for C1: a concrete invocation whose persistence write raises
leaves the session table untouched and yields the fatal 500 result. -/
theorem c1_atomic_prompt_persistence_witness :
    persona_lambda_handler true (.objEvent (some "s1") none none)
      ⟨.ok (), .ok (), .ok (), .error "boom"⟩ [("s1", emptySessionRecord)] [] [] 0 =
      .ok (.err 500 (errBody ("Failed to save persona: " ++ "boom")),
        [("s1", emptySessionRecord)])
    ∧ ([("s1", emptySessionRecord)] : SessionTable) = [("s1", emptySessionRecord)]
    ∧ (∀ s, PersonaResult.err 500 (errBody ("Failed to save persona: " ++ "boom")) ≠
        PersonaResult.ready s) := by
  have h := c1_atomic_prompt_persistence true (.objEvent (some "s1") none none)
    ⟨.ok (), .ok (), .ok (), .error "boom"⟩ [("s1", emptySessionRecord)] [] [] 0
    (.err 500 (errBody ("Failed to save persona: " ++ "boom")))
    [("s1", emptySessionRecord)] rfl
  exact ⟨rfl, (h.2 "boom" rfl).1, (h.2 "boom" rfl).2.1⟩

/-! ### C2 — fallback generic persona in all four prompts -/

theorem personaBaseContext_contains (profile : String) (research company : Json)
    (jd resume pat : String) (h : strContains (jsonDumps2 research) pat) :
    strContains (personaBaseContext profile research company jd resume) pat := by
  unfold personaBaseContext
  apply strContains_append_left
  apply strContains_append_left
  apply strContains_append_left
  apply strContains_append_left
  apply strContains_append_left
  apply strContains_append_left
  apply strContains_append_left
  apply strContains_append_right
  exact h

set_option maxRecDepth 100000 in
theorem genericPersona_dump_mentions :
    strContains (jsonDumps2 genericPersona) "Alex Mercer"
    ∧ strContains (jsonDumps2 genericPersona) "Senior Engineering Manager" := by
  constructor <;> decide

set_option maxRecDepth 100000 in
/-- C2: a session whose input carries no interviewer key still yields four
non-empty stage prompts, each containing the fixed literal generic persona
("Alex Mercer", headline "Senior Engineering Manager"). -/
theorem c2_generic_persona_prompts
    (ev : PersonaEvent) (b : PersonaBehavior) (ses : SessionTable) (li : LITable)
    (co : CompanyTable) (now : Nat) (sid? lid? curl? : Option String)
    (item : SessionRecord)
    (hres : resolveInputs ev = (sid?, lid?, curl?))
    (hlid : truthy lid? = false)
    (hsid : truthy sid? = true)
    (hget : b.sessionGet = .ok ())
    (hlook : List.lookup (getS sid?) ses = some item)
    (hsave : b.saveUpdate = .ok ()) :
    ∃ ses' r p1 p2 p3 p4,
      persona_lambda_handler true ev b ses li co now = .ok (.ready sid?, ses')
      ∧ List.lookup (getS sid?) ses' = some r
      ∧ r.prompt_introduction = some p1 ∧ r.prompt_technical = some p2
      ∧ r.prompt_behavioral = some p3 ∧ r.prompt_conclusion = some p4
      ∧ ∀ p ∈ [p1, p2, p3, p4], p ≠ ""
          ∧ strContains p "Alex Mercer"
          ∧ strContains p "Senior Engineering Manager" := by
  have hcontact : personaContact lid? b li = (genericPersona, "") := by
    unfold personaContact
    rw [hlid]
    rfl
  have hbase : ∀ profile company jd resume,
      strContains (personaBaseContext profile genericPersona company jd resume)
        "Alex Mercer"
      ∧ strContains (personaBaseContext profile genericPersona company jd resume)
        "Senior Engineering Manager" := by
    intro profile company jd resume
    exact ⟨personaBaseContext_contains _ _ _ _ _ _ genericPersona_dump_mentions.1,
      personaBaseContext_contains _ _ _ _ _ _ genericPersona_dump_mentions.2⟩
  unfold persona_lambda_handler
  rw [hres]
  try dsimp only
  simp only [hsid, Bool.not_true, Bool.false_eq_true, if_false, reduceIte]
  rw [hget]
  try dsimp only
  rw [hlook]
  try dsimp only
  rw [hcontact]
  try dsimp only
  have hfb : fallbackPersonaProfile genericPersona =
      .ok (fallbackProfileA ++
        "Experienced engineering leader with over 15 years in software development, cloud architecture, and team building. Passionate about scalable systems and mentorship." ++
        fallbackProfileB ++ "Senior Engineering Manager" ++ fallbackProfileC) := rfl
  simp only [show ("" : String).isEmpty = true from rfl, reduceIte, hfb]
  try dsimp only
  rw [hsave]
  try dsimp only
  obtain ⟨r0, hr0⟩ := lookup_updateSession_self ses (getS sid?)
    (fun rec => savePromptsRecord rec _ _ _ _ now)
  refine ⟨_, _, _, _, _, _, rfl, hr0, rfl, rfl, rfl, rfl, ?_⟩
  intro p hp
  have hintro : introSuffix ≠ "" := by decide
  have htech : technicalSuffix ≠ "" := by decide
  have hbehav : behavioralSuffix ≠ "" := by decide
  have hconcl : conclusionSuffix ≠ "" := by decide
  simp only [List.mem_cons, List.not_mem_nil, or_false] at hp
  rcases hp with hp | hp | hp | hp <;> subst hp
  · exact ⟨append_ne_empty_of_right _ _ hintro,
      strContains_append_left (hbase _ _ _ _).1,
      strContains_append_left (hbase _ _ _ _).2⟩
  · exact ⟨append_ne_empty_of_right _ _ htech,
      strContains_append_left (hbase _ _ _ _).1,
      strContains_append_left (hbase _ _ _ _).2⟩
  · exact ⟨append_ne_empty_of_right _ _ hbehav,
      strContains_append_left (hbase _ _ _ _).1,
      strContains_append_left (hbase _ _ _ _).2⟩
  · exact ⟨append_ne_empty_of_right _ _ hconcl,
      strContains_append_left (hbase _ _ _ _).1,
      strContains_append_left (hbase _ _ _ _).2⟩

/-- Witness for C2 at a concrete session with no interviewer key. -/
theorem c2_generic_persona_prompts_witness :
    resolveInputs (.objEvent (some "s1") none none) = (some "s1", none, none)
    ∧ truthy (none : Option String) = false
    ∧ truthy (some "s1") = true
    ∧ List.lookup (getS (some "s1")) [("s1", emptySessionRecord)] =
        some emptySessionRecord
    ∧ ∃ ses' r p1 p2 p3 p4,
        persona_lambda_handler true (.objEvent (some "s1") none none)
          ⟨.ok (), .ok (), .ok (), .ok ()⟩ [("s1", emptySessionRecord)] [] [] 0 =
          .ok (.ready (some "s1"), ses')
        ∧ List.lookup (getS (some "s1")) ses' = some r
        ∧ r.prompt_introduction = some p1 ∧ r.prompt_technical = some p2
        ∧ r.prompt_behavioral = some p3 ∧ r.prompt_conclusion = some p4
        ∧ ∀ p ∈ [p1, p2, p3, p4], p ≠ ""
            ∧ strContains p "Alex Mercer"
            ∧ strContains p "Senior Engineering Manager" :=
  ⟨rfl, rfl, rfl, rfl,
    c2_generic_persona_prompts (.objEvent (some "s1") none none)
      ⟨.ok (), .ok (), .ok (), .ok ()⟩ [("s1", emptySessionRecord)] [] [] 0
      (some "s1") none none emptySessionRecord rfl rfl rfl rfl rfl rfl⟩

/-! ### C9 — minimal fallback profile from summary/headline -/

theorem strContains_refl (s : String) : strContains s s := List.infix_refl s.data

theorem personaBaseContext_contains_profile (profile : String)
    (research company : Json) (jd resume : String) :
    strContains (personaBaseContext profile research company jd resume) profile := by
  unfold personaBaseContext
  apply strContains_append_left
  apply strContains_append_left
  apply strContains_append_left
  apply strContains_append_left
  apply strContains_append_left
  apply strContains_append_left
  apply strContains_append_left
  apply strContains_append_left
  apply strContains_append_left
  apply strContains_append_right
  exact strContains_refl profile

/-- C9: when the stored persona profile is empty (or absent) the handler
substitutes the minimal fallback profile, whose Bio section holds the raw
`summary` field and whose Role section holds the raw `headline` field, with
the fixed literal defaults `"Experienced Professional"` / `"Hiring Manager"`
when those keys are missing; the resulting profile is embedded in the
persisted stage prompts. -/
theorem c9_fallback_profile
    (ev : PersonaEvent) (b : PersonaBehavior) (ses : SessionTable) (li : LITable)
    (co : CompanyTable) (now : Nat) (sid? lid? curl? : Option String)
    (item : SessionRecord) (rec : LIRecord) (fs : List (String × Json))
    (hres : resolveInputs ev = (sid?, lid?, curl?))
    (hsid : truthy sid? = true)
    (hlid : truthy lid? = true)
    (hget : b.sessionGet = .ok ())
    (hli : b.liGet = .ok ())
    (hlook : List.lookup (getS sid?) ses = some item)
    (hrec : List.lookup (getS lid?) li = some rec)
    (hdata : rec.data = Json.obj fs)
    (hprof : rec.persona_profile.getD "" = "")
    (hsave : b.saveUpdate = .ok ()) :
    ∃ prof ses' r p,
      fallbackPersonaProfile (Json.obj fs) = .ok prof
      ∧ prof = fallbackProfileA ++
          (match lookupField fs "summary" with
           | some v => pyStr v | none => "Experienced Professional") ++
          fallbackProfileB ++
          (match lookupField fs "headline" with
           | some v => pyStr v | none => "Hiring Manager") ++
          fallbackProfileC
      ∧ persona_lambda_handler true ev b ses li co now = .ok (.ready sid?, ses')
      ∧ List.lookup (getS sid?) ses' = some r
      ∧ r.prompt_introduction = some p
      ∧ strContains p prof
      ∧ strContains prof
          (match lookupField fs "summary" with
           | some v => pyStr v | none => "Experienced Professional")
      ∧ strContains prof
          (match lookupField fs "headline" with
           | some v => pyStr v | none => "Hiring Manager")
      ∧ strContains fallbackProfileA "## Bio"
      ∧ strContains fallbackProfileB "## Role" := by
  have hcontact : personaContact lid? b li = (Json.obj fs, "") := by
    unfold personaContact
    simp only [hlid, reduceIte]
    rw [hli]
    dsimp only
    rw [hrec]
    dsimp only
    rw [hdata, hprof]
  have hfb : fallbackPersonaProfile (Json.obj fs) =
      .ok (fallbackProfileA ++
        (match lookupField fs "summary" with
         | some v => pyStr v | none => "Experienced Professional") ++
        fallbackProfileB ++
        (match lookupField fs "headline" with
         | some v => pyStr v | none => "Hiring Manager") ++
        fallbackProfileC) := rfl
  unfold persona_lambda_handler
  rw [hres]
  try dsimp only
  simp only [hsid, Bool.not_true, Bool.false_eq_true, if_false, reduceIte]
  rw [hget]
  try dsimp only
  rw [hlook]
  try dsimp only
  rw [hcontact]
  try dsimp only
  simp only [show ("" : String).isEmpty = true from rfl, reduceIte, hfb]
  try dsimp only
  rw [hsave]
  try dsimp only
  obtain ⟨r0, hr0⟩ := lookup_updateSession_self ses (getS sid?)
    (fun r => savePromptsRecord r _ _ _ _ now)
  refine ⟨_, _, _, _, hfb, rfl, rfl, hr0, rfl, ?_, ?_, ?_, by decide, by decide⟩
  · exact strContains_append_left (personaBaseContext_contains_profile _ _ _ _ _)
  · apply strContains_append_left
    apply strContains_append_left
    apply strContains_append_left
    apply strContains_append_right
    exact strContains_refl _
  · apply strContains_append_left
    apply strContains_append_right
    exact strContains_refl _

/-- Witness for C9 at a concrete cached interviewer record with an empty
profile and no summary/headline fields. -/
theorem c9_fallback_profile_witness :
    truthy (some "jdoe") = true
    ∧ List.lookup (getS (some "jdoe"))
        [("jdoe", (⟨Json.obj [], none, 0⟩ : LIRecord))] =
        some ⟨Json.obj [], none, 0⟩
    ∧ ((⟨Json.obj [], none, 0⟩ : LIRecord).persona_profile.getD "" = "")
    ∧ ∃ prof ses' r p,
        fallbackPersonaProfile (Json.obj []) = .ok prof
        ∧ prof = fallbackProfileA ++
            (match lookupField [] "summary" with
             | some v => pyStr v | none => "Experienced Professional") ++
            fallbackProfileB ++
            (match lookupField [] "headline" with
             | some v => pyStr v | none => "Hiring Manager") ++
            fallbackProfileC
        ∧ persona_lambda_handler true (.objEvent (some "s1") (some "jdoe") none)
            ⟨.ok (), .ok (), .ok (), .ok ()⟩ [("s1", emptySessionRecord)]
            [("jdoe", ⟨Json.obj [], none, 0⟩)] [] 0 = .ok (.ready (some "s1"), ses')
        ∧ List.lookup (getS (some "s1")) ses' = some r
        ∧ r.prompt_introduction = some p
        ∧ strContains p prof
        ∧ strContains prof
            (match lookupField [] "summary" with
             | some v => pyStr v | none => "Experienced Professional")
        ∧ strContains prof
            (match lookupField [] "headline" with
             | some v => pyStr v | none => "Hiring Manager")
        ∧ strContains fallbackProfileA "## Bio"
        ∧ strContains fallbackProfileB "## Role" :=
  ⟨rfl, rfl, rfl,
    c9_fallback_profile (.objEvent (some "s1") (some "jdoe") none)
      ⟨.ok (), .ok (), .ok (), .ok ()⟩ [("s1", emptySessionRecord)]
      [("jdoe", ⟨Json.obj [], none, 0⟩)] [] 0
      (some "s1") (some "jdoe") none emptySessionRecord ⟨Json.obj [], none, 0⟩ []
      rfl rfl rfl rfl rfl rfl rfl rfl rfl rfl⟩

/-! ### C8 — session link is field-scoped and its failure is non-fatal -/

/-- A company behaviour with the two session-link writes replaced. -/
def withLinks (b : CompanyBehavior) (l1 l2 : Except String Unit) : CompanyBehavior :=
  { b with linkOnHit := l1, link := l2 }

/-- C8: the session-link update sets only the `company_url` field of the
session record — every other field is unchanged — and the behaviour of the
two link writes (raising or succeeding) never changes the handler's result,
its stored company research, or its external call count. -/
theorem c8_link_frame_and_nonfatal :
    (∀ (r : SessionRecord) (url : String),
      (linkCompanyUrl r url).company_url = some url
      ∧ (linkCompanyUrl r url).job_description = r.job_description
      ∧ (linkCompanyUrl r url).resume_text = r.resume_text
      ∧ (linkCompanyUrl r url).prompt = r.prompt
      ∧ (linkCompanyUrl r url).prompt_introduction = r.prompt_introduction
      ∧ (linkCompanyUrl r url).prompt_technical = r.prompt_technical
      ∧ (linkCompanyUrl r url).prompt_behavioral = r.prompt_behavioral
      ∧ (linkCompanyUrl r url).prompt_conclusion = r.prompt_conclusion
      ∧ (linkCompanyUrl r url).status = r.status
      ∧ (linkCompanyUrl r url).updated_at = r.updated_at)
    ∧ (∀ (env : CompanyEnv) (ev : CompanyEvent) (b : CompanyBehavior)
        (cos : CompanyTable) (ses : SessionTable) (now : Nat)
        (l1 l2 l1' l2' : Except String Unit),
      ∃ o1 o2,
        company_lambda_handler env ev (withLinks b l1 l2) cos ses now = .ok o1
        ∧ company_lambda_handler env ev (withLinks b l1' l2') cos ses now = .ok o2
        ∧ o1.result = o2.result
        ∧ o1.companies = o2.companies
        ∧ o1.externalCalls = o2.externalCalls) := by
  constructor
  · intro r url
    exact ⟨rfl, rfl, rfl, rfl, rfl, rfl, rfl, rfl, rfl, rfl⟩
  intro env ev b cos ses now l1 l2 l1' l2'
  unfold company_lambda_handler
  have hcf : ∀ la lb, companyFetch env ev (withLinks b la lb) = companyFetch env ev b :=
    fun _ _ => rfl
  simp only [hcf]
  dsimp only [withLinks]
  cases henv : env.tableNameSet with
  | false => exact ⟨_, _, rfl, rfl, rfl, rfl, rfl⟩
  | true =>
    simp only [Bool.not_true, Bool.false_eq_true, if_false, reduceIte]
    cases hvalid : (!truthy ev.company_url && !truthy ev.company_name) with
    | true => simp only [if_true, reduceIte]; exact ⟨_, _, rfl, rfl, rfl, rfl, rfl⟩
    | false =>
      simp only [Bool.false_eq_true, if_false, reduceIte]
      cases hhit : (if truthy ev.company_url then
          match b.cacheGet with
          | .error _ => none
          | .ok () => List.lookup (getS ev.company_url) cos
        else (none : Option CompanyRecord)) with
      | some rec => exact ⟨_, _, rfl, rfl, rfl, rfl, rfl⟩
      | none =>
        cases hf : companyFetch env ev b with
        | fail r calls => exact ⟨_, _, rfl, rfl, rfl, rfl, rfl⟩
        | gotData d calls =>
          cases hput : b.put with
          | error m => exact ⟨_, _, rfl, rfl, rfl, rfl, rfl⟩
          | ok u =>
            cases u
            cases hcond : (truthy ev.session_id && env.personaTableSet) with
            | false => exact ⟨_, _, rfl, rfl, rfl, rfl, rfl⟩
            | true =>
              cases l2 with
              | error m2 =>
                cases l2' with
                | error m2' => exact ⟨_, _, rfl, rfl, rfl, rfl, rfl⟩
                | ok u2' => cases u2'; exact ⟨_, _, rfl, rfl, rfl, rfl, rfl⟩
              | ok u2 =>
                cases u2
                cases l2' with
                | error m2' => exact ⟨_, _, rfl, rfl, rfl, rfl, rfl⟩
                | ok u2' => cases u2'; exact ⟨_, _, rfl, rfl, rfl, rfl, rfl⟩

/-! ### C6 — idempotence: second call with the same URL is a pure cache hit -/

theorem companyFetch_fail_is_err (env : CompanyEnv) (ev : CompanyEvent)
    (b : CompanyBehavior) (r : CompanyResult) (n : Nat)
    (h : companyFetch env ev b = .fail r n) : ∃ body, r = .err 500 body := by
  unfold companyFetch at h
  split at h
  · exact absurd h (by simp)
  · split at h
    · injection h with h1 h2
      exact ⟨_, h1.symm⟩
    · split at h
      · injection h with h1 h2
        exact ⟨_, h1.symm⟩
      · injection h with h1 h2
        exact ⟨_, h1.symm⟩
      · exact absurd h (by simp)

/-- C6: if a first company-research call completes with a 200 result and its
cache write succeeded, the research record is stored under the event's URL,
and any second call with that same URL (against a cache whose read does not
raise) returns statusCode 200 carrying `session_id` and the same
`company_url` from the cache, performs zero external fetch requests and
leaves the research table unchanged. -/
theorem c6_idempotent_second_call
    (env : CompanyEnv) (ev : CompanyEvent) (b1 b2 : CompanyBehavior)
    (cos0 : CompanyTable) (ses0 : SessionTable) (now1 : Nat) (out1 : CompanyOut)
    (henv : env.tableNameSet = true)
    (hurl : truthy ev.company_url = true)
    (hrun1 : company_lambda_handler env ev b1 cos0 ses0 now1 = .ok out1)
    (hres1 : ∃ s cu, out1.result = CompanyResult.ok s cu)
    (hput1 : b1.put = .ok ())
    (hcg2 : b2.cacheGet = .ok ()) :
    (∃ rec, List.lookup (getS ev.company_url) out1.companies = some rec)
    ∧ ∀ (ses : SessionTable) (now2 : Nat),
        ∃ ses', company_lambda_handler env ev b2 out1.companies ses now2 =
          .ok ⟨.ok ev.session_id ev.company_url, out1.companies, ses', 0⟩ := by
  have hstore : ∃ rec, List.lookup (getS ev.company_url) out1.companies = some rec := by
    unfold company_lambda_handler at hrun1
    rw [henv] at hrun1
    simp only [Bool.not_true, Bool.false_eq_true, if_false, reduceIte] at hrun1
    rw [hurl] at hrun1
    simp only [Bool.not_true, Bool.false_and, Bool.false_eq_true, if_false,
      reduceIte] at hrun1
    split at hrun1
    · -- cache hit on the first call: the record was already present
      next rec hhit =>
        cases hcg1 : b1.cacheGet with
        | error m => rw [hcg1] at hhit; exact absurd hhit (by simp)
        | ok u =>
          cases u
          rw [hcg1] at hhit
          injection hrun1 with h1
          subst h1
          exact ⟨rec, hhit⟩
    · -- cache miss: the fetch succeeded (the result is ok) and the put stored
      split at hrun1
      · next r calls hf =>
        obtain ⟨body, hb⟩ := companyFetch_fail_is_err env ev b1 r calls hf
        injection hrun1 with h1
        subst h1
        obtain ⟨s, cu, hsc⟩ := hres1
        rw [hb] at hsc
        exact absurd hsc (by simp)
      · next d calls hf =>
        rw [hput1] at hrun1
        dsimp only at hrun1
        split at hrun1
        · split at hrun1
          · injection hrun1 with h1
            subst h1
            exact ⟨_, lookup_putAssoc_self _ _ _⟩
          · injection hrun1 with h1
            subst h1
            exact ⟨_, lookup_putAssoc_self _ _ _⟩
        · injection hrun1 with h1
          subst h1
          exact ⟨_, lookup_putAssoc_self _ _ _⟩
  refine ⟨hstore, ?_⟩
  intro ses now2
  obtain ⟨rec, hrec⟩ := hstore
  unfold company_lambda_handler
  rw [henv]
  simp only [Bool.not_true, Bool.false_eq_true, if_false, reduceIte]
  rw [hurl]
  simp only [Bool.not_true, Bool.false_and, Bool.false_eq_true, if_false, reduceIte]
  rw [hcg2]
  dsimp only
  rw [hrec]
  dsimp only
  exact ⟨_, rfl⟩

/-- Witness for C6: a concrete first call stores the record, and the second
call with the same URL is a pure cache hit with zero external fetches. -/
theorem c6_idempotent_second_call_witness :
    company_lambda_handler ⟨true, true, false⟩
      ⟨some "https://acme.com", some "Acme", some "s1"⟩
      ⟨.ok (), .ok (), .ok (), fun _ => .pending, .ok (), .ok ()⟩ [] [] 0 =
      .ok ⟨.ok (some "s1") (some "https://acme.com"),
        [("https://acme.com", ⟨mockCompanyData (some "Acme"), "0"⟩)],
        [("s1", ⟨none, none, some "https://acme.com", none, none, none, none,
          none, none, none⟩)], 0⟩
    ∧ (∃ rec, List.lookup (getS (some "https://acme.com"))
        [("https://acme.com", (⟨mockCompanyData (some "Acme"), "0"⟩ : CompanyRecord))] =
        some rec)
    ∧ ∀ (ses : SessionTable) (now2 : Nat), ∃ ses',
        company_lambda_handler ⟨true, true, false⟩
          ⟨some "https://acme.com", some "Acme", some "s1"⟩
          ⟨.ok (), .ok (), .ok (), fun _ => .pending, .ok (), .ok ()⟩
          [("https://acme.com", ⟨mockCompanyData (some "Acme"), "0"⟩)] ses now2 =
          .ok ⟨.ok (some "s1") (some "https://acme.com"),
            [("https://acme.com", ⟨mockCompanyData (some "Acme"), "0"⟩)], ses', 0⟩ := by
  have h := c6_idempotent_second_call ⟨true, true, false⟩
    ⟨some "https://acme.com", some "Acme", some "s1"⟩
    ⟨.ok (), .ok (), .ok (), fun _ => .pending, .ok (), .ok ()⟩
    ⟨.ok (), .ok (), .ok (), fun _ => .pending, .ok (), .ok ()⟩ [] [] 0
    ⟨.ok (some "s1") (some "https://acme.com"),
      [("https://acme.com", ⟨mockCompanyData (some "Acme"), "0"⟩)],
      [("s1", ⟨none, none, some "https://acme.com", none, none, none, none,
        none, none, none⟩)], 0⟩
    rfl rfl rfl ⟨some "s1", some "https://acme.com", rfl⟩ rfl rfl
  exact ⟨rfl, h.1, h.2⟩

/-! ### C10 — a 200 result does not guarantee persistence -/

/-- C10: on a cache miss with a successful external fetch, the company
handler returns statusCode 200 carrying `session_id` and the resolved key
even when the cache write or the session link raises: a raising `put_item`
leaves the research table (and sessions) completely unchanged, and a
raising link write leaves the session table unchanged while the record is
stored — so the 200 result does not guarantee persistence. -/
theorem c10_success_without_persistence
    (env : CompanyEnv) (ev : CompanyEvent) (b : CompanyBehavior)
    (cos : CompanyTable) (ses : SessionTable) (now : Nat) (raw : RawOutput)
    (henv : env.tableNameSet = true)
    (hurl : truthy ev.company_url = true)
    (hcg : b.cacheGet = .ok ())
    (hmiss : List.lookup (getS ev.company_url) cos = none)
    (hapi : env.apiKeySet = true)
    (hcreate : b.createTask = .ok ())
    (hprov : b.provider 0 = .ready raw) :
    (∀ e, b.put = .error e →
      company_lambda_handler env ev b cos ses now =
        .ok ⟨.ok ev.session_id (some (getS ev.company_url)), cos, ses, 2⟩)
    ∧ (b.put = .ok () → ∀ e, b.link = .error e →
       truthy ev.session_id = true → env.personaTableSet = true →
       company_lambda_handler env ev b cos ses now =
         .ok ⟨.ok ev.session_id (some (getS ev.company_url)),
           putAssoc cos (getS ev.company_url)
             ⟨extractContent (normalizeOutput raw), toString now⟩, ses, 2⟩) := by
  have hpoll : companyPoll b.provider = .got raw 1 0 := by
    unfold companyPoll
    rw [show (30 : Nat) = 29 + 1 from rfl, companyPollAux, hprov]
  have hcf : companyFetch env ev b = .gotData (normalizeOutput raw) 2 := by
    unfold companyFetch
    rw [hapi]
    simp only [Bool.not_true, Bool.false_eq_true, if_false, reduceIte]
    rw [hcreate]
    dsimp only
    rw [hpoll]
  have hmain : ∀ target, (match b.put with
      | .error _ => Except.ok (⟨.ok ev.session_id (some (getS ev.company_url)), cos, ses, 2⟩ : CompanyOut)
      | .ok () =>
        if (truthy ev.session_id && env.personaTableSet) = true then
          match b.link with
          | .error _ =>
            .ok ⟨.ok ev.session_id (some (getS ev.company_url)),
              putAssoc cos (getS ev.company_url)
                ⟨extractContent (normalizeOutput raw), toString now⟩, ses, 2⟩
          | .ok () =>
            .ok ⟨.ok ev.session_id (some (getS ev.company_url)),
              putAssoc cos (getS ev.company_url)
                ⟨extractContent (normalizeOutput raw), toString now⟩,
              updateSession ses (getS ev.session_id)
                (fun r => linkCompanyUrl r (getS ev.company_url)), 2⟩
        else
          .ok ⟨.ok ev.session_id (some (getS ev.company_url)),
            putAssoc cos (getS ev.company_url)
              ⟨extractContent (normalizeOutput raw), toString now⟩, ses, 2⟩) = target →
      company_lambda_handler env ev b cos ses now = target := by
    intro target htarget
    unfold company_lambda_handler
    rw [henv]
    simp only [Bool.not_true, Bool.false_eq_true, if_false, reduceIte]
    rw [hurl]
    simp only [Bool.not_true, Bool.false_and, Bool.false_eq_true, if_false, reduceIte]
    rw [hcg]
    dsimp only
    rw [hmiss]
    dsimp only
    rw [hcf]
    dsimp only
    exact htarget
  constructor
  · intro e hput
    apply hmain
    rw [hput]
  · intro hput e hlink hsid hpersona
    apply hmain
    rw [hput]
    dsimp only
    rw [hsid, hpersona]
    simp only [Bool.and_self, if_true, reduceIte]
    rw [hlink]

/-- Witness for C10: a concrete invocation whose cache write raises still
returns the 200 result with the resolved key, and stores nothing. -/
theorem c10_success_without_persistence_witness :
    truthy (some "https://acme.com") = true
    ∧ List.lookup (getS (some "https://acme.com")) ([] : CompanyTable) = none
    ∧ company_lambda_handler ⟨true, true, true⟩
        ⟨some "https://acme.com", none, some "s1"⟩
        ⟨.ok (), .ok (), .ok (), fun _ => .ready (.str "acme research"),
          .error "DynamoDB write failed", .ok ()⟩ [] [] 0 =
        .ok ⟨.ok (some "s1") (some (getS (some "https://acme.com"))), [], [], 2⟩ := by
  refine ⟨rfl, rfl, ?_⟩
  exact (c10_success_without_persistence ⟨true, true, true⟩
    ⟨some "https://acme.com", none, some "s1"⟩
    ⟨.ok (), .ok (), .ok (), fun _ => .ready (.str "acme research"),
      .error "DynamoDB write failed", .ok ()⟩ [] [] 0 (.str "acme research")
    rfl rfl rfl rfl rfl rfl rfl).1 "DynamoDB write failed" rfl
